import Mathlib

/-!
Verification development for the MQTT5 RPC server policy
(`src/sdk/src/azure/core/az_mqtt5_rpc_server_hfsm.c`).

The C file is shallowly embedded: the policy struct becomes a Lean
structure, each state handler (`root`, `waiting`, `faulted`) becomes a
Lean function on that structure, collaborator outcomes (the mosquitto
topic matcher, property-bag appends, outbound sends, timer start) are
passed in explicitly as an environment, and outbound events / application
callbacks are collected as an output list.
-/

namespace RpcServer

/-! ## az_result model

`az_result` is a 32-bit code; `az_result_failed` tests the sign bit, so
we model results as `Int` with failure `r < 0`.  The numeric values of
the error codes live in headers outside the embedded file; we use
distinct values with the correct sign. `AZ_HFSM_RETURN_HANDLE_BY_SUPERSTATE`
is a non-error sentinel distinct from `AZ_OK`. -/

def AZ_OK : Int := 0
def AZ_HFSM_RETURN_HANDLE_BY_SUPERSTATE : Int := 1
def AZ_ERROR_HFSM_INVALID_STATE : Int := -1
def AZ_ERROR_ITEM_NOT_FOUND : Int := -2
def AZ_ERROR_ARG : Int := -3
def AZ_ERROR_NOT_SUPPORTED : Int := -4

def az_result_failed (r : Int) : Bool := r < 0

/-! ## Topic matching

`az_span_topic_matches_sub` delegates to `mosquitto_topic_matches_sub`,
which either reports an error or produces a boolean match result.  The
mosquitto matcher is an external collaborator, so it is a parameter:
`Except Unit Bool` models its (error-code, out-bool) pair. -/

abbrev Matcher := String → String → Except Unit Bool

/-- Model of `az_span_topic_matches_sub` (lines 127-137): when the
underlying matcher does not return `MOSQ_ERR_SUCCESS`, the result is
forced to `false`; otherwise the matcher's out-parameter is returned. -/
def az_span_topic_matches_sub (m : Matcher) (sub topic : String) : Bool :=
  match m sub topic with
  | .error _ => false
  | .ok b => b

/-! ## Status formatting (`_build_response`, lines 183-192)

The C code declares `char status_str[5]` and performs
`sprintf(status_str, "%d", event_data->status)`.  We model the string
`sprintf` produces for `%d` and the number of bytes it writes
(digits plus terminating NUL). -/

def status_str_size : Nat := 5

/-- Decimal rendering of an `int32` status exactly as `sprintf "%d"`
produces it: base-10 digits, a leading `-` only for negatives, no
padding and no `+`. -/
def sprintf_d (i : Int) : String :=
  if i < 0 then "-" ++ toString i.natAbs else toString i.natAbs

/-- Bytes `sprintf` writes into the destination buffer: the rendered
digits plus the terminating NUL. -/
def sprintf_d_bytes_written (i : Int) : Nat := (sprintf_d i).length + 1

/-- The write is memory-safe exactly when it fits the 5-byte buffer. -/
def status_write_in_bounds (i : Int) : Prop :=
  sprintf_d_bytes_written i ≤ status_str_size

instance (i : Int) : Decidable (status_write_in_bounds i) := by
  unfold status_write_in_bounds; infer_instance

/-! ## Topic construction (`az_rpc_server_init`, lines 476-484)

`az_span_copy` advances a destination span after writing the source
bytes; the sequence of copies therefore writes the concatenation of the
sources.  We model the destination by the list of bytes written so far. -/

def az_span_copy (written : List Char) (src : String) : List Char :=
  written ++ src.data

def az_span_copy_u8 (written : List Char) (c : Char) : List Char :=
  written ++ [c]

/-- Model of `_az_span_is_valid(command_name, 1, 0)`: a span (non-null
in this model) is valid with minimum size 1 iff it holds at least one
byte. -/
def span_is_valid_min1 (s : String) : Bool := 1 ≤ s.length

/-- Bytes written into the subscription-topic buffer by the copy
sequence of `az_rpc_server_init` (lines 476-484). -/
def init_topic_bytes (model_id client_id command_name : String) : List Char :=
  let t0 : List Char := []
  let t1 := az_span_copy t0 "vehicles/"
  let t2 := az_span_copy t1 model_id
  let t3 := az_span_copy t2 "/commands/"
  let t4 := az_span_copy t3 client_id
  let t5 := az_span_copy_u8 t4 '/'
  let t6 := az_span_copy t5
      (if span_is_valid_min1 command_name then command_name else "+")
  az_span_copy_u8 t6 (Char.ofNat 0)

/-- The spec's words for the same bytes: `"vehicles/" + model_id +
"/commands/" + client_id + "/" + (command_name | "+") + NUL`, with `+`
substituted when `command_name` is empty. -/
def spec_topic_bytes (model_id client_id command_name : String) : List Char :=
  ("vehicles/" ++ model_id ++ "/commands/" ++ client_id ++ "/"
    ++ (if command_name = "" then "+" else command_name)).data
  ++ [Char.ofNat 0]

/-! ## init argument validation (`az_rpc_server_init`, lines 462-472)

The checks are `_az_PRECONDITION_VALID_SPAN` macros whose failure
behaviour is defined outside the embedded file.  Modelled from the
spec: a failed precondition surfaces as `AZ_ERROR_ARG`
(`InvalidArgument`).  The conditions themselves are taken from the
source: `model_id` and `client_id` need size ≥ 1, and the topic buffer
needs size ≥ `len(model_id) + len(client_id) + max(1, len(command_name)) + 23`. -/

def subscription_min_length (model_id client_id command_name : String) : Nat :=
  model_id.length + client_id.length
    + (if 0 < command_name.length then command_name.length else 1) + 23

/-- Modelled from the spec: `_az_PRECONDITION_VALID_SPAN` failure (the
macro body is outside the embedded source) is surfaced as
`InvalidArgument`; the validated conditions are those of
`az_rpc_server_init` lines 466-471. On success the function returns the
bytes written into the buffer. -/
def az_rpc_server_init_validate (model_id client_id command_name : String)
    (topic_buffer_size : Nat) : Except Int (List Char) :=
  if model_id.length < 1 then .error AZ_ERROR_ARG
  else if client_id.length < 1 then .error AZ_ERROR_ARG
  else if topic_buffer_size < subscription_min_length model_id client_id command_name then
    .error AZ_ERROR_ARG
  else .ok (init_topic_bytes model_id client_id command_name)

/-! ## Policy state and events

`az_mqtt5_rpc_server` fields used by the handlers: the HFSM leaf state
(`waiting` or `faulted`, both children of `root`), the pending
subscription id, the subscribe timer (modelled by an armed flag), the
reusable property bag (modelled as the list of appended properties),
the subscription topic and whether a connection is attached. -/

inductive HState where
  | waiting
  | faulted
  deriving DecidableEq, Repr

inductive Prop5 where
  | userProperty (key value : String)
  | contentType (value : String)
  | correlationData (bytes : List Nat)
  deriving DecidableEq, Repr

structure Pol where
  state : HState
  pending_subscription_id : Nat
  timer_armed : Bool
  property_bag : List Prop5
  subscription_topic : String
  has_connection : Bool
  deriving DecidableEq, Repr

/-- Inbound PUB data (`az_mqtt5_recv_data`): topic, payload, and the
received property bag, of which the handlers read the response topic,
correlation data and content type (each possibly absent). -/
structure RecvData where
  topic : String
  payload : String
  response_topic : Option String
  correlation_data : Option (List Nat)
  content_type : Option String
  deriving DecidableEq, Repr

/-- Application execution result
(`az_mqtt5_rpc_server_execution_rsp_event_data`). -/
structure RspData where
  status : Int
  error_message : String
  response : String
  content_type : String
  correlation_id : List Nat
  response_topic : String
  request_topic : String
  deriving DecidableEq, Repr

/-- Command request handed to the application
(`az_mqtt5_rpc_server_execution_req_event_data`). -/
structure ReqData where
  correlation_id : List Nat
  response_topic : String
  request_data : String
  request_topic : String
  content_type : String
  deriving DecidableEq, Repr

/-- Outbound PUB data (`az_mqtt5_pub_data`): the properties field is the
bag contents at build time. -/
structure PubData where
  topic : String
  qos : Nat
  payload : String
  properties : List Prop5
  deriving DecidableEq, Repr

/-- Events delivered to the policy. `timeout` carries whether
`event.data` equals the address of this instance's `rpc_server_timer`. -/
inductive Ev where
  | entry
  | exitEv
  | errorEv
  | subAckRsp (id : Nat)
  | timeout (is_rpc_server_timer : Bool)
  | pubRecvInd (r : RecvData)
  | execCommandRsp (d : RspData)
  | pubAckRsp
  | connOpenReq
  | connectRsp
  | connCloseReq
  | disconnectRsp
  | otherEv
  deriving DecidableEq, Repr

/-- Observable interactions with collaborators during one handler run. -/
inductive Out where
  | pubReq (d : PubData)
  | subReq (topic_filter : String) (qos : Nat)
  | appCallback (c : ReqData)
  | inboundErrorForward
  deriving DecidableEq, Repr

/-- Collaborator outcomes for one event delivery: the topic matcher and
the `az_result` codes returned by the property-bag appends, the
outbound send, and the connection API callback.  `az_mqtt5_property_bag_empty`
frees the bag's property list and reports success, so it is not a
parameter. -/
structure Env where
  matcher : Matcher
  append_first_res : Int
  append_status_res : Int
  append_corr_res : Int
  send_res : Int
  callback_res : Int

/-! ## `_build_response` (lines 148-208)

Appends to the property bag in source order: `statusMessage` user
property on the failure branch or `ContentType` on the success branch,
then the `status` user property, then `CorrelationData`.  Each
`_az_RETURN_IF_FAILED` aborts with the append's error, leaving the bag
with the properties appended so far (a failed append itself adds
nothing). -/
def build_response (p : Pol) (d : RspData) (env : Env) :
    Pol × Except Int PubData :=
  let branch :
      Pol × Except Int String :=
    if d.status < 200 ∨ 300 ≤ d.status then
      if az_result_failed env.append_first_res then (p, .error env.append_first_res)
      else
        ({ p with property_bag :=
            p.property_bag ++ [.userProperty "statusMessage" d.error_message] },
          .ok "")
    else
      if az_result_failed env.append_first_res then (p, .error env.append_first_res)
      else
        ({ p with property_bag := p.property_bag ++ [.contentType d.content_type] },
          .ok d.response)
  match branch with
  | (p1, .error e) => (p1, .error e)
  | (p1, .ok payload) =>
    if az_result_failed env.append_status_res then (p1, .error env.append_status_res)
    else
      let p2 := { p1 with property_bag :=
        p1.property_bag ++ [.userProperty "status" (sprintf_d d.status)] }
      if az_result_failed env.append_corr_res then (p2, .error env.append_corr_res)
      else
        let p3 := { p2 with property_bag :=
          p2.property_bag ++ [.correlationData d.correlation_id] }
        (p3, .ok { topic := d.response_topic, qos := 1, payload := payload,
                   properties := p3.property_bag })

/-- Model of `_send_response_pub` (lines 273-283): send the PUB_REQ,
then empty the property bag unconditionally, and return the send
result. -/
def send_response_pub (p : Pol) (d : PubData) (env : Env) :
    Pol × Int × List Out :=
  ({ p with property_bag := [] }, env.send_res, [.pubReq d])

/-- Model of `_handle_request` (lines 218-264): read the three required
properties in source order, aborting with `ItemNotFound` on a missing
one; otherwise invoke the connection API callback with the parsed
command data, propagating the callback's failure. -/
def handle_request (p : Pol) (r : RecvData) (env : Env) : Int × List Out :=
  match r.response_topic with
  | none => (AZ_ERROR_ITEM_NOT_FOUND, [])
  | some rt =>
    match r.correlation_data with
    | none => (AZ_ERROR_ITEM_NOT_FOUND, [])
    | some corr =>
      match r.content_type with
      | none => (AZ_ERROR_ITEM_NOT_FOUND, [])
      | some ct =>
        let cmd : ReqData :=
          { correlation_id := corr, response_topic := rt,
            request_data := r.payload, request_topic := r.topic,
            content_type := ct }
        if az_result_failed env.callback_res then
          (env.callback_res, [.appCallback cmd])
        else (AZ_OK, [.appCallback cmd])

/-- Model of the `waiting` state handler (lines 289-389). -/
def waiting (p : Pol) (ev : Ev) (env : Env) : Pol × Int × List Out :=
  match ev with
  | .entry => (p, AZ_OK, [])
  | .subAckRsp id =>
    if id = p.pending_subscription_id then
      ({ p with pending_subscription_id := 0, timer_armed := false }, AZ_OK, [])
    else (p, AZ_OK, [])
  | .timeout is_ours =>
    if is_ours then ({ p with state := .faulted }, AZ_OK, [])
    else (p, AZ_OK, [])
  | .pubRecvInd r =>
    if az_span_topic_matches_sub env.matcher p.subscription_topic r.topic then
      let p1 :=
        if p.pending_subscription_id ≠ 0 then
          { p with pending_subscription_id := 0, timer_armed := false }
        else p
      let (res, outs) := handle_request p1 r env
      (p1, res, outs)
    else (p, AZ_OK, [])
  | .execCommandRsp d =>
    if az_span_topic_matches_sub env.matcher p.subscription_topic d.request_topic then
      match build_response p d env with
      | (p1, .error e) => (p1, e, [])
      | (p1, .ok data) =>
        let (p2, _sendRes, outs) := send_response_pub p1 data env
        (p2, AZ_OK, outs)
    else (p, AZ_OK, [])
  | .pubAckRsp => (p, AZ_OK, [])
  | .connOpenReq => (p, AZ_OK, [])
  | .connectRsp => (p, AZ_OK, [])
  | .exitEv => (p, AZ_OK, [])
  | _ => (p, AZ_HFSM_RETURN_HANDLE_BY_SUPERSTATE, [])

/-- Model of the `root` state handler (lines 47-96). Root never
transitions; the `Exit` branch escalates to a critical platform error
(modelled as no state change) and the `Error` branch forwards the event
inbound. -/
def root (p : Pol) (ev : Ev) (env : Env) : Pol × Int × List Out :=
  match ev with
  | .entry => (p, AZ_OK, [])
  | .errorEv => (p, AZ_OK, [.inboundErrorForward])
  | .exitEv => (p, AZ_OK, [])
  | .pubAckRsp => (p, AZ_OK, [])
  | .connOpenReq => (p, AZ_OK, [])
  | .connectRsp => (p, AZ_OK, [])
  | .connCloseReq => (p, AZ_OK, [])
  | .disconnectRsp => (p, AZ_OK, [])
  | _ => (p, AZ_HFSM_RETURN_HANDLE_BY_SUPERSTATE, [])

/-- Model of the `faulted` state handler (lines 394-408): returns
`AZ_ERROR_HFSM_INVALID_STATE` for every event, touches nothing. -/
def faulted (p : Pol) (_ev : Ev) (_env : Env) : Pol × Int × List Out :=
  (p, AZ_ERROR_HFSM_INVALID_STATE, [])

/-- HFSM dispatch: the event goes to the current leaf state; a
`HANDLE_BY_SUPERSTATE` result bubbles to the parent (`root` for both
leaves, per `_get_parent`). -/
def dispatch (p : Pol) (ev : Ev) (env : Env) : Pol × Int × List Out :=
  match p.state with
  | .faulted => faulted p ev env
  | .waiting =>
    let (p1, res, outs) := waiting p ev env
    if res = AZ_HFSM_RETURN_HANDLE_BY_SUPERSTATE then root p1 ev env
    else (p1, res, outs)

/-- Run a sequence of deliveries, each with its collaborator
environment, threading the policy state. -/
def run (p : Pol) (l : List (Ev × Env)) : Pol :=
  l.foldl (fun q ie => (dispatch q ie.1 ie.2).1) p

/-! ## Public operations -/

/-- Collaborator outcomes for `az_mqtt5_rpc_server_register`: whether
`_rpc_start_timer` succeeded (its result is discarded by the caller),
the result of sending `SUB_REQ`, and the subscription id the MQTT5
client wrote into `out_id`.  Modelled from the spec: the id of an
in-flight SUB assigned by the MQTT5 client (whose code is outside the
embedded file) is nonzero — `0` means none outstanding. -/
structure RegEnv where
  timer_start_ok : Bool
  sub_send_res : Int
  out_id : Nat

/-- Model of `az_mqtt5_rpc_server_register` (lines 425-442): fail with
`NotSupported` when unattached; start the subscribe timer (result
ignored); send `SUB_REQ`, aborting on failure; record the assigned
subscription id. -/
def az_mqtt5_rpc_server_register (p : Pol) (env : RegEnv) :
    Pol × Int × List Out :=
  if ¬p.has_connection then (p, AZ_ERROR_NOT_SUPPORTED, [])
  else
    let p1 := { p with timer_armed := env.timer_start_ok }
    if az_result_failed env.sub_send_res then (p1, env.sub_send_res, [])
    else
      ({ p1 with pending_subscription_id := env.out_id }, AZ_OK,
        [.subReq p.subscription_topic 1])

/-- Model of `az_rpc_server_init` state effects (lines 452-498): stores
the property bag and the freshly written subscription topic, attaches
the connection and enters `waiting` through
`_az_rpc_server_policy_init`.  `pending_subscription_id` and the timer
are not touched by init, so their prior contents are parameters (the
caller zero-initializes the client struct). -/
def az_rpc_server_init (pending0 : Nat) (timer0 : Bool)
    (bag : List Prop5) (model_id client_id command_name : String) : Pol :=
  { state := .waiting
    pending_subscription_id := pending0
    timer_armed := timer0
    property_bag := bag
    subscription_topic :=
      String.mk (init_topic_bytes model_id client_id command_name)
    has_connection := true }

/-! ## Concrete sample values used by witnesses and counterexamples -/

def matcherTrue : Matcher := fun _ _ => .ok true

def matcherErr : Matcher := fun _ _ => .error ()

def envAllOk : Env :=
  { matcher := matcherTrue, append_first_res := AZ_OK, append_status_res := AZ_OK,
    append_corr_res := AZ_OK, send_res := AZ_OK, callback_res := AZ_OK }

def polW : Pol :=
  { state := .waiting, pending_subscription_id := 0, timer_armed := false,
    property_bag := [], subscription_topic := "vehicles/m1/commands/c1/cmd",
    has_connection := true }

def polF : Pol := { polW with state := .faulted }

def rsp200 : RspData :=
  { status := 200, error_message := "", response := "ok-payload",
    content_type := "application/json", correlation_id := [170],
    response_topic := "r/1", request_topic := "vehicles/m1/commands/c1/cmd" }

def recvFull : RecvData :=
  { topic := "vehicles/m1/commands/c1/cmd", payload := "req",
    response_topic := some "r/1", correlation_data := some [170],
    content_type := some "application/json" }

/-! ## C3 — status formatting and the 5-byte buffer -/

/-- C3: the claim asserts that for every `int32` status the formatted
decimal is appended "without error or memory corruption".  The
formatting itself is plain `%d` (base-10, no padding, no sign for
non-negative values), but the destination is `char status_str[5]`:
at `status = 10000` sprintf writes 6 bytes ("10000" plus NUL) into the
5-byte buffer — memory corruption.  This theorem exhibits the failing
input in the model. -/
theorem status_buffer_overflows_at_10000 :
    sprintf_d 10000 = "10000"
    ∧ sprintf_d_bytes_written 10000 = 6
    ∧ ¬ status_write_in_bounds 10000
    ∧ (10000 : Int) < 2 ^ 31 := by
  refine ⟨rfl, rfl, by decide, by norm_num⟩

/-! ## C6 — subscription-topic construction -/

theorem ite_command_name (n : String) :
    (if span_is_valid_min1 n then n else "+") = (if n = "" then "+" else n) := by
  by_cases h : n = ""
  · subst h; rfl
  · have hd : n.data ≠ [] := fun hd => h (String.ext (hd.trans rfl))
    have hlen : span_is_valid_min1 n = true := by
      have hpos : 0 < n.data.length := List.length_pos.mpr hd
      have hl : 1 ≤ n.length := by
        have hrfl : n.length = n.data.length := rfl
        omega
      simpa [span_is_valid_min1] using hl
    rw [if_pos hlen, if_neg h]

/-- C6: for non-empty `model_id` and `client_id` and any
`command_name`, `az_rpc_server_init` writes into the subscription-topic
buffer exactly `"vehicles/" + model_id + "/commands/" + client_id + "/"
+ (command_name | "+") + NUL`, with `+` substituted when `command_name`
is empty. -/
theorem init_topic_bytes_correct (m c n : String) (hm : m ≠ "") (hc : c ≠ "") :
    init_topic_bytes m c n = spec_topic_bytes m c n := by
  simp only [init_topic_bytes, spec_topic_bytes, az_span_copy, az_span_copy_u8,
    ite_command_name, String.data_append, List.nil_append, List.append_assoc]

theorem init_topic_bytes_correct_witness :
    ("m1" : String) ≠ "" ∧ ("c1" : String) ≠ ""
    ∧ init_topic_bytes "m1" "c1" "cmd" = spec_topic_bytes "m1" "c1" "cmd" :=
  ⟨by decide, by decide, init_topic_bytes_correct "m1" "c1" "cmd" (by decide) (by decide)⟩

/-! ## C7 — init argument validation -/

/-- C7: init fails with `InvalidArgument` when `model_id` is empty,
when `client_id` is empty, or when the subscription-topic buffer is
shorter than `len(model_id) + len(client_id) + max(1, len(command_name)) + 23`
bytes.  (Precondition-failure behaviour modelled from the spec as an
`InvalidArgument` return; the checked conditions are the source's.) -/
theorem init_validate_fails_invalid_arg (m c n : String) (sz : Nat)
    (h : m = "" ∨ c = "" ∨ sz < subscription_min_length m c n) :
    az_rpc_server_init_validate m c n sz = .error AZ_ERROR_ARG := by
  unfold az_rpc_server_init_validate
  rcases h with h | h | h
  · have : m.length < 1 := by subst h; decide
    simp [this]
  · have : c.length < 1 := by subst h; decide
    split
    · rfl
    · simp [this]
  · split
    · rfl
    · split
      · rfl
      · simp [h]

theorem init_validate_fails_invalid_arg_witness :
    (("" : String) = "" ∨ ("c1" : String) = "" ∨ 100 < subscription_min_length "" "c1" "cmd")
    ∧ az_rpc_server_init_validate "" "c1" "cmd" 100 = .error AZ_ERROR_ARG :=
  ⟨Or.inl rfl, init_validate_fails_invalid_arg "" "c1" "cmd" 100 (Or.inl rfl)⟩

/-! ## C10 — topic matching fails closed -/

/-- C10: when the underlying mosquitto matcher reports an error,
`az_span_topic_matches_sub` returns `false`, so a malformed topic or
filter is treated as a non-match; in particular a PUB whose topic the
matcher cannot evaluate is ignored by the `waiting` handler without an
error result. -/
theorem topic_match_fails_closed :
    (∀ (m : Matcher) (sub topic : String), m sub topic = .error () →
      az_span_topic_matches_sub m sub topic = false)
    ∧ (∀ (p : Pol) (r : RecvData) (env : Env), p.state = .waiting →
      env.matcher p.subscription_topic r.topic = .error () →
      dispatch p (.pubRecvInd r) env = (p, AZ_OK, [])) := by
  constructor
  · intro m sub topic h
    simp [az_span_topic_matches_sub, h]
  · intro p r env hw h
    have hm : az_span_topic_matches_sub env.matcher p.subscription_topic r.topic = false := by
      simp [az_span_topic_matches_sub, h]
    simp [dispatch, hw, waiting, hm, AZ_OK, AZ_HFSM_RETURN_HANDLE_BY_SUPERSTATE]

theorem topic_match_fails_closed_witness :
    (matcherErr "a" "b" = .error ()
      ∧ az_span_topic_matches_sub matcherErr "a" "b" = false)
    ∧ (polW.state = .waiting
      ∧ dispatch polW (.pubRecvInd recvFull) { envAllOk with matcher := matcherErr }
        = (polW, AZ_OK, [])) :=
  ⟨⟨rfl, topic_match_fails_closed.1 matcherErr "a" "b" rfl⟩,
   ⟨rfl, topic_match_fails_closed.2 polW recvFull { envAllOk with matcher := matcherErr }
      rfl rfl⟩⟩

/-! ## Helper lemmas about the handlers -/

theorem build_response_only_bag (p : Pol) (d : RspData) (env : Env) :
    ∃ bag, (build_response p d env).1 = { p with property_bag := bag } := by
  unfold build_response
  split_ifs <;> exact ⟨_, rfl⟩

theorem root_fst (p : Pol) (ev : Ev) (env : Env) : (root p ev env).1 = p := by
  cases ev <;> rfl

theorem handle_request_missing (p : Pol) (r : RecvData) (env : Env)
    (hmiss : r.response_topic = none ∨ r.correlation_data = none
      ∨ r.content_type = none) :
    handle_request p r env = (AZ_ERROR_ITEM_NOT_FOUND, []) := by
  rcases hrt : r.response_topic with _ | rt <;>
    rcases hcd : r.correlation_data with _ | cd <;>
      rcases hct : r.content_type with _ | ct <;>
        simp [handle_request, hrt, hcd, hct] <;> simp_all

theorem waiting_state_no_timeout (p : Pol) (ev : Ev) (env : Env)
    (hnt : ev ≠ Ev.timeout true) :
    (waiting p ev env).1.state = p.state := by
  cases ev with
  | entry => rfl
  | exitEv => rfl
  | errorEv => rfl
  | subAckRsp id =>
    by_cases h : id = p.pending_subscription_id <;> simp [waiting, h]
  | timeout b =>
    cases b with
    | false => rfl
    | true => exact absurd rfl hnt
  | pubRecvInd r =>
    by_cases h : az_span_topic_matches_sub env.matcher p.subscription_topic r.topic
    · by_cases h2 : p.pending_subscription_id = 0 <;>
        simp [waiting, h, h2]
    · simp [waiting, h]
  | execCommandRsp d =>
    obtain ⟨bag, hb⟩ := build_response_only_bag p d env
    by_cases h : az_span_topic_matches_sub env.matcher p.subscription_topic d.request_topic
    · rcases hbr : build_response p d env with ⟨p1, r⟩
      have hp1 : p1 = { p with property_bag := bag } := by rw [hbr] at hb; exact hb
      cases r with
      | error e => simp [waiting, h, hbr, hp1]
      | ok data => simp [waiting, h, hbr, send_response_pub, hp1]
    · simp [waiting, h]
  | pubAckRsp => rfl
  | connOpenReq => rfl
  | connectRsp => rfl
  | connCloseReq => rfl
  | disconnectRsp => rfl
  | otherEv => rfl

theorem dispatch_state_no_timeout (p : Pol) (ev : Ev) (env : Env)
    (hw : p.state = .waiting) (hnt : ev ≠ Ev.timeout true) :
    (dispatch p ev env).1.state = .waiting := by
  unfold dispatch
  rw [hw]
  rcases hwv : waiting p ev env with ⟨p1, res, outs⟩
  have hst : p1.state = p.state := by
    have := waiting_state_no_timeout p ev env hnt
    rw [hwv] at this
    exact this
  by_cases h : res = AZ_HFSM_RETURN_HANDLE_BY_SUPERSTATE
  · simp [h, root_fst, hst, hw]
  · simp [h, hst, hw]

theorem run_no_timeout_stays_waiting (l : List (Ev × Env)) (p : Pol)
    (hw : p.state = .waiting) (h : ∀ ie ∈ l, ie.1 ≠ Ev.timeout true) :
    (run p l).state = .waiting := by
  induction l generalizing p with
  | nil => simpa [run] using hw
  | cons ie t ih =>
    have h1 : ie.1 ≠ Ev.timeout true := h ie (List.mem_cons_self _ _)
    have hstep := dispatch_state_no_timeout p ie.1 ie.2 hw h1
    have : run p (ie :: t) = run (dispatch p ie.1 ie.2).1 t := by
      simp [run]
    rw [this]
    exact ih _ hstep (fun x hx => h x (List.mem_cons_of_mem _ hx))

/-! ## C1 — faulted is terminal and reached only by a subscribe timeout -/

/-- C1: starting from a freshly initialized instance, any event
sequence that contains no `Timeout` carrying this instance's subscribe
timer never reaches `faulted`; and once `faulted`, every delivered
event returns `InvalidState` and leaves the instance untouched, with no
outputs. -/
theorem faulted_terminal_only_timeout :
    (∀ (pending0 : Nat) (timer0 : Bool) (bag : List Prop5)
        (m c n : String) (l : List (Ev × Env)),
      (∀ ie ∈ l, ie.1 ≠ Ev.timeout true) →
      (run (az_rpc_server_init pending0 timer0 bag m c n) l).state ≠ .faulted)
    ∧ (∀ (p : Pol) (ev : Ev) (env : Env), p.state = .faulted →
      dispatch p ev env = (p, AZ_ERROR_HFSM_INVALID_STATE, [])) := by
  constructor
  · intro pending0 timer0 bag m c n l h
    have := run_no_timeout_stays_waiting l (az_rpc_server_init pending0 timer0 bag m c n) rfl h
    rw [this]
    decide
  · intro p ev env hf
    unfold dispatch
    rw [hf]
    rfl

theorem faulted_terminal_only_timeout_witness :
    ((run (az_rpc_server_init 0 false [] "m1" "c1" "cmd")
        [(Ev.subAckRsp 5, envAllOk), (Ev.timeout false, envAllOk),
         (Ev.pubRecvInd recvFull, envAllOk)]).state ≠ .faulted)
    ∧ dispatch polF (Ev.execCommandRsp rsp200) envAllOk
        = (polF, AZ_ERROR_HFSM_INVALID_STATE, []) :=
  ⟨faulted_terminal_only_timeout.1 0 false [] "m1" "c1" "cmd" _ (by decide),
   faulted_terminal_only_timeout.2 polF (Ev.execCommandRsp rsp200) envAllOk rfl⟩

/-! ## C4 — non-matching topics are ignored without side effects -/

/-- C4: an inbound PUB whose topic does not match `subscription_topic`
produces no application callback, and a non-matching
`ExecuteCommandRsp` produces no outbound `PublishRequest`; in both
cases the handler returns `AZ_OK`, emits nothing, and the instance
(property bag included) is unchanged. -/
theorem nonmatching_ignored :
    (∀ (p : Pol) (r : RecvData) (env : Env), p.state = .waiting →
      az_span_topic_matches_sub env.matcher p.subscription_topic r.topic = false →
      dispatch p (.pubRecvInd r) env = (p, AZ_OK, []))
    ∧ (∀ (p : Pol) (d : RspData) (env : Env), p.state = .waiting →
      az_span_topic_matches_sub env.matcher p.subscription_topic d.request_topic = false →
      dispatch p (.execCommandRsp d) env = (p, AZ_OK, [])) := by
  constructor
  · intro p r env hw hm
    simp [dispatch, hw, waiting, hm, AZ_OK, AZ_HFSM_RETURN_HANDLE_BY_SUPERSTATE]
  · intro p d env hw hm
    simp [dispatch, hw, waiting, hm, AZ_OK, AZ_HFSM_RETURN_HANDLE_BY_SUPERSTATE]

def matcherFalse : Matcher := fun _ _ => .ok false

theorem nonmatching_ignored_witness :
    (polW.state = .waiting
      ∧ dispatch polW (.pubRecvInd recvFull) { envAllOk with matcher := matcherFalse }
          = (polW, AZ_OK, []))
    ∧ dispatch polW (.execCommandRsp rsp200) { envAllOk with matcher := matcherFalse }
        = (polW, AZ_OK, []) :=
  ⟨⟨rfl, nonmatching_ignored.1 polW recvFull { envAllOk with matcher := matcherFalse }
      rfl rfl⟩,
   nonmatching_ignored.2 polW rsp200 { envAllOk with matcher := matcherFalse } rfl rfl⟩

/-! ## C9 — missing required property drops the request -/

/-- C9: a matching inbound PUB that lacks the response topic, the
correlation data or the content type is dropped: the handler emits no
application callback (no outputs at all) and the instance stays in
`waiting` — one bad PUB never faults the policy. -/
theorem missing_property_drops_request (p : Pol) (r : RecvData) (env : Env)
    (hw : p.state = .waiting)
    (hm : az_span_topic_matches_sub env.matcher p.subscription_topic r.topic = true)
    (hmiss : r.response_topic = none ∨ r.correlation_data = none
      ∨ r.content_type = none) :
    (dispatch p (.pubRecvInd r) env).2.2 = []
    ∧ (dispatch p (.pubRecvInd r) env).1.state = .waiting := by
  have hhr := handle_request_missing
    (if p.pending_subscription_id ≠ 0 then
      { p with pending_subscription_id := 0, timer_armed := false } else p)
    r env hmiss
  unfold dispatch
  rw [hw]
  by_cases h2 : p.pending_subscription_id = 0 <;>
    simp [waiting, hm, h2, hw, AZ_ERROR_ITEM_NOT_FOUND,
      AZ_HFSM_RETURN_HANDLE_BY_SUPERSTATE] at hhr ⊢ <;>
    simp [hhr, hw]

def recvNoCorr : RecvData := { recvFull with correlation_data := none }

theorem missing_property_drops_request_witness :
    (polW.state = .waiting
      ∧ az_span_topic_matches_sub envAllOk.matcher polW.subscription_topic
          recvNoCorr.topic = true
      ∧ recvNoCorr.correlation_data = none)
    ∧ (dispatch polW (.pubRecvInd recvNoCorr) envAllOk).2.2 = []
    ∧ (dispatch polW (.pubRecvInd recvNoCorr) envAllOk).1.state = .waiting :=
  ⟨⟨rfl, rfl, rfl⟩,
   missing_property_drops_request polW recvNoCorr envAllOk rfl rfl
     (Or.inr (Or.inl rfl))⟩

/-! ## C2 / C8 — outbound response path -/

theorem build_response_ok (p : Pol) (d : RspData) (env : Env)
    (h1 : ¬ az_result_failed env.append_first_res = true)
    (h2 : ¬ az_result_failed env.append_status_res = true)
    (h3 : ¬ az_result_failed env.append_corr_res = true) :
    ∃ bag data, build_response p d env = ({ p with property_bag := bag }, .ok data) := by
  unfold build_response
  split_ifs <;> first
    | exact ⟨_, _, rfl⟩
    | simp_all

theorem dispatch_execRsp_build_ok (p : Pol) (d : RspData) (env : Env)
    (hw : p.state = .waiting)
    (hm : az_span_topic_matches_sub env.matcher p.subscription_topic d.request_topic = true)
    (h1 : ¬ az_result_failed env.append_first_res = true)
    (h2 : ¬ az_result_failed env.append_status_res = true)
    (h3 : ¬ az_result_failed env.append_corr_res = true) :
    ∃ data, dispatch p (.execCommandRsp d) env
      = ({ p with property_bag := [] }, AZ_OK, [Out.pubReq data]) := by
  obtain ⟨bag, data, hbr⟩ := build_response_ok p d env h1 h2 h3
  refine ⟨data, ?_⟩
  unfold dispatch
  rw [hw]
  simp [waiting, hm, hbr, send_response_pub, hw, AZ_OK,
    AZ_HFSM_RETURN_HANDLE_BY_SUPERSTATE]

/-- The C2 claim as stated is false: when appending a property fails
during response construction, `_build_response` aborts before
`_send_response_pub`, so the bag-empty step never runs.  Concretely:
matching `ExecuteCommandRsp`, status 200, the `ContentType` append
succeeds and the `status` append fails — afterwards the bag still holds
the `ContentType` property. -/
def envBuildFail : Env := { envAllOk with append_status_res := -5 }

theorem response_bag_not_emptied_on_append_failure :
    az_span_topic_matches_sub envBuildFail.matcher polW.subscription_topic
        rsp200.request_topic = true
    ∧ az_result_failed envBuildFail.append_status_res = true
    ∧ (dispatch polW (.execCommandRsp rsp200) envBuildFail).1.property_bag
        = [Prop5.contentType "application/json"]
    ∧ (dispatch polW (.execCommandRsp rsp200) envBuildFail).1.property_bag ≠ [] :=
  ⟨rfl, rfl, rfl, by decide⟩

/-- C2 (amended): after handling a matching `ExecuteCommandRsp` whose
response construction succeeds (all three property appends return
success), the property bag contains zero properties — regardless of
whether sending the publish succeeds or fails.  When an append fails
during construction the handler returns that error and the bag keeps
the properties appended so far. -/
theorem response_bag_emptied_when_build_succeeds (p : Pol) (d : RspData) (env : Env)
    (hw : p.state = .waiting)
    (hm : az_span_topic_matches_sub env.matcher p.subscription_topic d.request_topic = true)
    (h1 : ¬ az_result_failed env.append_first_res = true)
    (h2 : ¬ az_result_failed env.append_status_res = true)
    (h3 : ¬ az_result_failed env.append_corr_res = true) :
    (dispatch p (.execCommandRsp d) env).1.property_bag = [] := by
  obtain ⟨data, hd⟩ := dispatch_execRsp_build_ok p d env hw hm h1 h2 h3
  rw [hd]

def envSendFail : Env := { envAllOk with send_res := -7 }

theorem response_bag_emptied_when_build_succeeds_witness :
    (polW.state = .waiting
      ∧ az_span_topic_matches_sub envSendFail.matcher polW.subscription_topic
          rsp200.request_topic = true
      ∧ az_result_failed envSendFail.send_res = true)
    ∧ (dispatch polW (.execCommandRsp rsp200) envSendFail).1.property_bag = [] :=
  ⟨⟨rfl, rfl, rfl⟩,
   response_bag_emptied_when_build_succeeds polW rsp200 envSendFail rfl rfl
     (by decide) (by decide) (by decide)⟩

/-- The C8 claim as stated is false: `waiting` discards the value
returned by `_send_response_pub`, so a failed outbound send is not
returned to the caller of the event handler — the handler returns
`AZ_OK`.  Concretely: matching `ExecuteCommandRsp`, all appends
succeed, the send returns `-7`, and the handler result is `AZ_OK`. -/
theorem send_failure_not_returned :
    az_result_failed envSendFail.send_res = true
    ∧ (dispatch polW (.execCommandRsp rsp200) envSendFail).2.1 = AZ_OK
    ∧ AZ_OK ≠ envSendFail.send_res :=
  ⟨rfl, rfl, by decide⟩

/-- C8 (amended): when sending the outbound response publish fails
during handling of a matching `ExecuteCommandRsp`, the send error is
discarded by the event handler — the handler returns `AZ_OK` — and the
instance's HFSM state is unchanged (the property bag is still
emptied). -/
theorem send_failure_swallowed_state_unchanged (p : Pol) (d : RspData) (env : Env)
    (hw : p.state = .waiting)
    (hm : az_span_topic_matches_sub env.matcher p.subscription_topic d.request_topic = true)
    (h1 : ¬ az_result_failed env.append_first_res = true)
    (h2 : ¬ az_result_failed env.append_status_res = true)
    (h3 : ¬ az_result_failed env.append_corr_res = true)
    (hs : az_result_failed env.send_res = true) :
    (dispatch p (.execCommandRsp d) env).2.1 = AZ_OK
    ∧ (dispatch p (.execCommandRsp d) env).1.state = p.state
    ∧ (dispatch p (.execCommandRsp d) env).1.property_bag = [] := by
  obtain ⟨data, hd⟩ := dispatch_execRsp_build_ok p d env hw hm h1 h2 h3
  rw [hd]
  exact ⟨rfl, rfl, rfl⟩

theorem send_failure_swallowed_state_unchanged_witness :
    (az_result_failed envSendFail.send_res = true)
    ∧ (dispatch polW (.execCommandRsp rsp200) envSendFail).2.1 = AZ_OK
    ∧ (dispatch polW (.execCommandRsp rsp200) envSendFail).1.state = polW.state
    ∧ (dispatch polW (.execCommandRsp rsp200) envSendFail).1.property_bag = [] :=
  ⟨rfl,
   (send_failure_swallowed_state_unchanged polW rsp200 envSendFail rfl rfl
      (by decide) (by decide) (by decide) rfl).1,
   (send_failure_swallowed_state_unchanged polW rsp200 envSendFail rfl rfl
      (by decide) (by decide) (by decide) rfl).2.1,
   (send_failure_swallowed_state_unchanged polW rsp200 envSendFail rfl rfl
      (by decide) (by decide) (by decide) rfl).2.2⟩

/-! ## C5 — pending_subscription_id / timer invariant -/

def sub_timer_inv (p : Pol) : Prop :=
  p.pending_subscription_id = 0 ↔ p.timer_armed = false

/-- C5: `pending_subscription_id == 0` iff no subscribe timer is armed:
the invariant holds after init (on a zero-initialized client struct)
and is maintained by the claim's operations — `register` (when the
timer start and the SUB_REQ send succeed and the MQTT5 client assigns a
nonzero id) arms the timer and records the nonzero id; a matching
`SubAckRsp` disarms the timer and clears the id; a matching
`PubRecvInd` with a nonzero pending id disarms the timer and clears the
id; a non-matching `SubAckRsp` changes nothing. -/
theorem pending_id_timer_invariant :
    (∀ (bag : List Prop5) (m c n : String),
      sub_timer_inv (az_rpc_server_init 0 false bag m c n))
    ∧ (∀ (p : Pol) (env : RegEnv), p.has_connection = true →
        env.timer_start_ok = true → ¬ az_result_failed env.sub_send_res = true →
        env.out_id ≠ 0 →
        (az_mqtt5_rpc_server_register p env).1.timer_armed = true
        ∧ (az_mqtt5_rpc_server_register p env).1.pending_subscription_id = env.out_id
        ∧ sub_timer_inv (az_mqtt5_rpc_server_register p env).1)
    ∧ (∀ (p : Pol) (env : Env) (id : Nat), p.state = .waiting →
        id = p.pending_subscription_id →
        (dispatch p (.subAckRsp id) env).1.pending_subscription_id = 0
        ∧ (dispatch p (.subAckRsp id) env).1.timer_armed = false)
    ∧ (∀ (p : Pol) (env : Env) (id : Nat), p.state = .waiting →
        id ≠ p.pending_subscription_id →
        (dispatch p (.subAckRsp id) env).1 = p)
    ∧ (∀ (p : Pol) (env : Env) (r : RecvData), p.state = .waiting →
        az_span_topic_matches_sub env.matcher p.subscription_topic r.topic = true →
        p.pending_subscription_id ≠ 0 →
        (dispatch p (.pubRecvInd r) env).1.pending_subscription_id = 0
        ∧ (dispatch p (.pubRecvInd r) env).1.timer_armed = false) := by
  refine ⟨?_, ?_, ?_, ?_, ?_⟩
  · intro bag m c n
    simp [sub_timer_inv, az_rpc_server_init]
  · intro p env hc ht hs ho
    unfold az_mqtt5_rpc_server_register
    simp [hc, ht, hs, sub_timer_inv, ho]
  · intro p env id hw hid
    unfold dispatch
    rw [hw]
    simp [waiting, hid, AZ_OK, AZ_HFSM_RETURN_HANDLE_BY_SUPERSTATE]
  · intro p env id hw hid
    unfold dispatch
    rw [hw]
    simp [waiting, hid, AZ_OK, AZ_HFSM_RETURN_HANDLE_BY_SUPERSTATE]
  · intro p env r hw hm hp
    unfold dispatch
    rw [hw]
    rcases hhr : handle_request
      { p with pending_subscription_id := 0, timer_armed := false } r env
      with ⟨res, outs⟩
    by_cases hres : res = AZ_HFSM_RETURN_HANDLE_BY_SUPERSTATE <;>
      simp [waiting, hm, hp, hhr, hres, root_fst]

def regOk : RegEnv := { timer_start_ok := true, sub_send_res := 0, out_id := 42 }

def polP : Pol :=
  { polW with pending_subscription_id := 42, timer_armed := true }

theorem pending_id_timer_invariant_witness :
    sub_timer_inv (az_rpc_server_init 0 false [] "m1" "c1" "cmd")
    ∧ ((az_mqtt5_rpc_server_register polW regOk).1.timer_armed = true
      ∧ (az_mqtt5_rpc_server_register polW regOk).1.pending_subscription_id = 42
      ∧ sub_timer_inv (az_mqtt5_rpc_server_register polW regOk).1)
    ∧ ((dispatch polP (.subAckRsp 42) envAllOk).1.pending_subscription_id = 0
      ∧ (dispatch polP (.subAckRsp 42) envAllOk).1.timer_armed = false)
    ∧ (dispatch polP (.subAckRsp 7) envAllOk).1 = polP
    ∧ ((dispatch polP (.pubRecvInd recvFull) envAllOk).1.pending_subscription_id = 0
      ∧ (dispatch polP (.pubRecvInd recvFull) envAllOk).1.timer_armed = false) :=
  ⟨pending_id_timer_invariant.1 [] "m1" "c1" "cmd",
   pending_id_timer_invariant.2.1 polW regOk rfl rfl (by decide) (by decide),
   pending_id_timer_invariant.2.2.1 polP envAllOk 42 rfl rfl,
   pending_id_timer_invariant.2.2.2.1 polP envAllOk 7 rfl (by decide),
   pending_id_timer_invariant.2.2.2.2 polP envAllOk recvFull rfl rfl (by decide)⟩

end RpcServer
